import Mathlib

/-!
# Fridge Tetris Master — verification of the spec claims

Shallow embedding of `src/app.py` (the `FridgeTetrisMaster` class, its two
transports and the Gradio interface function) together with concrete models
of the external libraries the code calls into:

* `base64.b64encode(...).decode()` is embedded as a genuine RFC 4648 base64
  encoder over byte lists, with a matching decoder used to state round-trip
  claims;
* PIL's PNG writer/reader pair is modelled as a concrete lossless
  serializer/parser over a bitmap type (`PImage`), reflecting that PNG is a
  lossless format;
* every other external call (HTTP POST, vLLM model load and chat,
  `Image.open`, `Image.fromarray`, `process_vision_info`) is a field of an
  explicit environment record `Env`; a call that can raise a Python exception
  is `Except PyExc`-valued, and the `try/except` blocks of the source are
  embedded as explicit matches on those results.

The transport functions additionally return a trace of the outward effects
they perform (`Effect`), so that "no network call is made" claims are
statable.
-/

/-! ## Base64 (model of Python's `base64.b64encode`) -/

/-- The RFC 4648 base64 alphabet, as used by `base64.b64encode`. -/
def b64chars : List Char :=
  "ABCDEFGHIJKLMNOPQRSTUVWXYZabcdefghijklmnopqrstuvwxyz0123456789+/".toList

/-- Character for a six-bit group. -/
def sextetChar (n : Nat) : Char := b64chars.getD n 'A'

/-- Index of a character in the base64 alphabet. -/
def charSextet (c : Char) : Option Nat := b64chars.findIdx? (fun x => x == c)

/-- Base64 encoding of a byte list, three bytes to four characters, with
`=` padding exactly as `base64.b64encode` produces it. -/
def b64encodeBytes : List Nat → List Char
  | [] => []
  | [a] => [sextetChar (a / 4), sextetChar (a % 4 * 16), '=', '=']
  | [a, b] => [sextetChar (a / 4), sextetChar (a % 4 * 16 + b / 16),
               sextetChar (b % 16 * 4), '=']
  | a :: b :: c :: rest =>
      sextetChar (a / 4) :: sextetChar (a % 4 * 16 + b / 16) ::
      sextetChar (b % 16 * 4 + c / 64) :: sextetChar (c % 64) ::
      b64encodeBytes rest

/-- Base64 decoding, the inverse direction of `b64encodeBytes`: four
characters at a time, with `=` padding accepted only in a final group. -/
def b64decodeBytes : List Char → Option (List Nat)
  | [] => some []
  | c1 :: c2 :: c3 :: c4 :: rest =>
      if c3 = '=' ∧ c4 = '=' ∧ rest = [] then
        match charSextet c1, charSextet c2 with
        | some s1, some s2 =>
            if s2 % 16 = 0 then some [s1 * 4 + s2 / 16] else none
        | _, _ => none
      else if c4 = '=' ∧ rest = [] then
        match charSextet c1, charSextet c2, charSextet c3 with
        | some s1, some s2, some s3 =>
            if s3 % 4 = 0 then some [s1 * 4 + s2 / 16, s2 % 16 * 16 + s3 / 4]
            else none
        | _, _, _ => none
      else
        match charSextet c1, charSextet c2, charSextet c3, charSextet c4 with
        | some s1, some s2, some s3, some s4 =>
            (b64decodeBytes rest).map
              (fun bs => (s1 * 4 + s2 / 16) :: (s2 % 16 * 16 + s3 / 4) ::
                         (s3 % 4 * 64 + s4) :: bs)
        | _, _, _, _ => none
  | _ => none

/-! ## PNG codec model (PIL `img.save(..., format="PNG")` / `Image.open`)

PIL's PNG writer is lossless; we model a decoded bitmap as a width, a
height and a flat list of byte-valued samples, and the PNG byte stream as a
concrete injective serialization of that data. -/

/-- Model of a decoded bitmap (a PIL `Image`): dimensions plus byte-valued
samples. -/
structure PImage where
  width : Nat
  height : Nat
  pixels : List (Fin 256)
  deriving DecidableEq, Repr

/-- Unary length encoding used by the PNG model: `n` ones then a zero. -/
def unaryNat (n : Nat) : List Nat := List.replicate n 1 ++ [0]

/-- The PNG byte stream of a bitmap in the codec model: encoded width,
encoded height, then the samples. -/
def pngSerialize (img : PImage) : List Nat :=
  unaryNat img.width ++ unaryNat img.height ++ img.pixels.map Fin.val

/-- Read one unary-encoded number off the front of a byte stream. -/
def parseUnary : List Nat → Option (Nat × List Nat)
  | 0 :: rest => some (0, rest)
  | 1 :: rest => (parseUnary rest).map (fun p => (p.1 + 1, p.2))
  | _ => none

/-- Read the remaining bytes back as samples, checking each is a byte. -/
def bytesToPixels : List Nat → Option (List (Fin 256))
  | [] => some []
  | b :: rest =>
      if h : b < 256 then (bytesToPixels rest).map (fun l => ⟨b, h⟩ :: l)
      else none

/-- PNG reading in the codec model (PIL `Image.open` on a PNG stream). -/
def pngParse (bytes : List Nat) : Option PImage :=
  match parseUnary bytes with
  | none => none
  | some (w, r1) =>
    match parseUnary r1 with
    | none => none
    | some (h, r2) =>
      match bytesToPixels r2 with
      | none => none
      | some px => some ⟨w, h, px⟩

/-! ## Python-level values and the external environment -/

/-- A caught Python exception; only its `str(e)` rendering is observable. -/
structure PyExc where
  msg : String
  deriving DecidableEq, Repr

/-- JSON values, as built and parsed by the app (`json=` bodies and
`response.json()`). -/
inductive JVal where
  | str (s : String)
  | num (q : ℚ)
  | bool (b : Bool)
  | arr (items : List JVal)
  | obj (fields : List (String × JVal))
  deriving Repr

/-- The keys of a JSON object (empty for non-objects). -/
def JVal.keys : JVal → List String
  | .obj fields => fields.map Prod.fst
  | _ => []

/-- Dictionary lookup on a JSON object. -/
def jLookup (j : JVal) (key : String) : Option JVal :=
  match j with
  | .obj fields => fields.lookup key
  | _ => Option.none

/-- Python `d.get(key, default)`: the attribute exists only on dictionaries;
on any other value the attribute access raises. -/
def pyGet (j : JVal) (key : String) (default : JVal) : Except PyExc JVal :=
  match j with
  | .obj fields => .ok ((fields.lookup key).getD default)
  | _ => .error ⟨"AttributeError: object has no attribute get"⟩

/-- A numpy pixel array handed over by Gradio. -/
structure NpArray where
  data : List Nat
  deriving DecidableEq, Repr

/-- The possible Python values reaching the image arguments: `None`, a file
path string, a PIL image, or a numpy array. -/
inductive ImgInput where
  | none
  | path (p : String)
  | pil (img : PImage)
  | arr (a : NpArray)
  deriving DecidableEq, Repr

/-- Handle to a loaded vLLM model. -/
structure LLM where
  model : String
  deriving DecidableEq, Repr

/-- One content item of a vLLM chat message. -/
inductive VllmContent where
  | image (url : String)
  | text (t : String)
  deriving DecidableEq, Repr

/-- One vLLM chat message. -/
structure VllmMessage where
  role : String
  content : List VllmContent
  deriving DecidableEq, Repr

/-- The message list passed to `llm.chat`. -/
abbrev VllmMessages := List VllmMessage

/-- `SamplingParams(max_tokens=..., temperature=...)`; the temperature is a
rational, standing for the Python float literal. -/
structure SamplingParams where
  max_tokens : Nat
  temperature : ℚ
  deriving DecidableEq, Repr

/-- An HTTP POST issued through `requests.post(url, json=..., timeout=...)`. -/
structure HttpReq where
  url : String
  body : JVal
  timeout : Nat

/-- An HTTP response: status code, and the result of `response.json()`
(which may itself raise on a malformed body). -/
structure HttpResp where
  status : Nat
  json : Except PyExc JVal

/-- One inner completion of a vLLM request output; `image` is the optional
annotated-image attribute probed with `hasattr`. -/
structure CompletionOutput where
  text : String
  image : Option PImage

/-- One element of the list returned by `llm.chat`. -/
structure RequestOutput where
  outputs : List CompletionOutput

/-- The external world: availability flags of the optional imports, the
prompt file, and every library call the app makes. Calls that can raise a
Python exception are `Except`-valued. -/
structure Env where
  ollama_available : Bool
  vllm_available : Bool
  qwen_available : Bool
  prompt_file : Option String
  loadLLM : String → Except PyExc LLM
  openImage : String → Except PyExc PImage
  fromarray : NpArray → Except PyExc PImage
  httpPost : HttpReq → Except PyExc HttpResp
  process_vision_info : VllmMessages → Except PyExc VllmMessages
  llmChat : LLM → VllmMessages → SamplingParams → Except PyExc (List RequestOutput)

/-- The outward transport effects the app can perform. -/
inductive Effect where
  | ollamaPost (req : HttpReq)
  | vllmGenerate (msgs : VllmMessages) (params : SamplingParams)

/-! ## The `FridgeTetrisMaster` class -/

/-- The state of a `FridgeTetrisMaster` instance after `__init__`. -/
structure FridgeTetrisMaster where
  use_ollama : Bool
  ollama_url : String
  llm : Option LLM
  base_prompt : String

/-- The fallback prompt used when `prompt.txt` is absent. -/
def default_base_prompt : String :=
  "You are Fridge Tetris Master. Analyze the fridge and groceries, then provide optimal packing instructions."

/-- `FridgeTetrisMaster.__init__`: read the prompt file, then attempt to
load the vLLM model unless Ollama was requested; a load failure flips
`use_ollama` to `True` and leaves `llm` unset. -/
def FridgeTetrisMaster.init (env : Env) (model_name : String)
    (use_ollama : Bool) (ollama_url : String) : FridgeTetrisMaster :=
  let base_prompt := env.prompt_file.getD default_base_prompt
  if !use_ollama && env.vllm_available then
    match env.loadLLM model_name with
    | .ok l => ⟨use_ollama, ollama_url, some l, base_prompt⟩
    | .error _ => ⟨true, ollama_url, Option.none, base_prompt⟩
  else ⟨use_ollama, ollama_url, Option.none, base_prompt⟩

/-- The body of the `try` block of `image_to_base64`: obtain a PIL image
from the input, save it as PNG into a buffer, and base64-encode the bytes. -/
def image_to_base64_try (env : Env) (image : ImgInput) : Except PyExc String :=
  match image with
  | .path s =>
      match env.openImage s with
      | .error e => .error e
      | .ok img => .ok (String.mk (b64encodeBytes (pngSerialize img)))
  | .pil img => .ok (String.mk (b64encodeBytes (pngSerialize img)))
  | .arr a =>
      match env.fromarray a with
      | .error e => .error e
      | .ok img => .ok (String.mk (b64encodeBytes (pngSerialize img)))
  | .none => .error ⟨"TypeError: Cannot handle this data type"⟩

/-- `FridgeTetrisMaster.image_to_base64`: `None` for a `None` input,
otherwise the `try` body with every exception caught and turned into
`None`. -/
def image_to_base64 (env : Env) (image : ImgInput) : Option String :=
  match image with
  | ImgInput.none => Option.none
  | _ =>
      match image_to_base64_try env image with
      | .ok s => some s
      | .error _ => Option.none

/-- The PIL image that the conversion operates on, when one is obtained. -/
def loadImage (env : Env) : ImgInput → Option PImage
  | ImgInput.none => Option.none
  | .path s => (env.openImage s).toOption
  | .pil img => some img
  | .arr a => (env.fromarray a).toOption

/-- The mode instruction appended to the prompt; any mode other than
`"Normal"` selects the chaos instruction. -/
def mode_instruction (mode : String) : String :=
  if mode = "Normal" then "Normal mode: maximum efficiency and cold-chain logic"
  else "Chaos mode: intentionally terrible but technically possible packing with evil commentary"

/-- The assembled prompt sent to either transport. -/
def full_prompt (base_prompt mode : String) : String :=
  base_prompt ++ "\n\nMode: " ++ mode ++ "\n" ++ mode_instruction mode

/-- The sampling temperature chosen in `call_vllm`:
`0.7 if mode == "Normal" else 0.9`. -/
def vllm_temperature (mode : String) : ℚ :=
  if mode = "Normal" then (7 : ℚ)/10 else (9 : ℚ)/10

/-- The message array of the Ollama request body. -/
def ollamaMessages (prompt cf nb : String) : JVal :=
  .arr [.obj [("role", .str "user"),
              ("content", .str prompt),
              ("images", .arr [.str cf, .str nb])]]

/-- The JSON body of the Ollama request. -/
def ollamaBody (prompt cf nb : String) : JVal :=
  .obj [("model", .str "qwen2.5-vl:7b"),
        ("messages", ollamaMessages prompt cf nb),
        ("stream", .bool false)]

/-- The HTTP POST that `call_ollama` issues. -/
def ollamaReq (st : FridgeTetrisMaster) (cf nb mode : String) : HttpReq :=
  { url := st.ollama_url ++ "/api/chat"
    body := ollamaBody (full_prompt st.base_prompt mode) cf nb
    timeout := 120 }

/-- Modelled from the Ollama HTTP API: the sampling temperature a request
body determines, read from `options.temperature` (or a top-level
`temperature` field); absent fields leave the server default in force. -/
def ollamaBodySamplingTemperature (body : JVal) : Option JVal :=
  match jLookup body "options" with
  | some opts => jLookup opts "temperature"
  | Option.none => jLookup body "temperature"

/-- Extraction of the reply text from a 200 response:
`result.get("message", {}).get("content", "No response from model")`. -/
def ollamaText (result : JVal) : Except PyExc JVal :=
  match pyGet result "message" (.obj []) with
  | .error e => .error e
  | .ok m => pyGet m "content" (.str "No response from model")

/-- `FridgeTetrisMaster.call_ollama`, with its effect trace. -/
def call_ollama (st : FridgeTetrisMaster) (env : Env) (cf nb mode : String) :
    (JVal × Option PImage) × List Effect :=
  if env.ollama_available = false then
    ((.str "Error: Ollama not available. Install requests library.", Option.none), [])
  else
    match env.httpPost (ollamaReq st cf nb mode) with
    | .error e =>
        ((.str ("Error calling Ollama: " ++ e.msg), Option.none),
         [.ollamaPost (ollamaReq st cf nb mode)])
    | .ok resp =>
        if resp.status = 200 then
          match resp.json with
          | .error e =>
              ((.str ("Error calling Ollama: " ++ e.msg), Option.none),
               [.ollamaPost (ollamaReq st cf nb mode)])
          | .ok result =>
              match ollamaText result with
              | .error e =>
                  ((.str ("Error calling Ollama: " ++ e.msg), Option.none),
                   [.ollamaPost (ollamaReq st cf nb mode)])
              | .ok t => ((t, Option.none), [.ollamaPost (ollamaReq st cf nb mode)])
        else
          ((.str ("Error: Ollama API returned status " ++ toString resp.status),
            Option.none), [.ollamaPost (ollamaReq st cf nb mode)])

/-- The message list `call_vllm` builds: both images as data URLs, then the
prompt text. -/
def vllmMessagesOf (prompt cf nb : String) : VllmMessages :=
  [⟨"user", [.image ("data:image/png;base64," ++ cf),
             .image ("data:image/png;base64," ++ nb),
             .text prompt]⟩]

/-- `FridgeTetrisMaster.call_vllm`, with its effect trace. The source's
locals `messages` and `sampling_params` are inlined. -/
def call_vllm (st : FridgeTetrisMaster) (env : Env) (cf nb mode : String) :
    (JVal × Option PImage) × List Effect :=
  match st.llm with
  | Option.none => ((.str "Error: vLLM model not loaded", Option.none), [])
  | some l =>
    match (if env.qwen_available then
             env.process_vision_info (vllmMessagesOf (full_prompt st.base_prompt mode) cf nb)
           else .ok (vllmMessagesOf (full_prompt st.base_prompt mode) cf nb)) with
    | .error e => ((.str ("Error calling vLLM: " ++ e.msg), Option.none), [])
    | .ok msgs =>
      match env.llmChat l msgs ⟨2048, vllm_temperature mode⟩ with
      | .error e =>
          ((.str ("Error calling vLLM: " ++ e.msg), Option.none),
           [.vllmGenerate msgs ⟨2048, vllm_temperature mode⟩])
      | .ok outs =>
        match outs with
        | [] => ((.str "Error: No response from model", Option.none),
                 [.vllmGenerate msgs ⟨2048, vllm_temperature mode⟩])
        | o :: _ =>
          match o.outputs with
          | [] => ((.str "Error calling vLLM: list index out of range", Option.none),
                   [.vllmGenerate msgs ⟨2048, vllm_temperature mode⟩])
          | c :: _ => ((.str c.text, c.image),
                       [.vllmGenerate msgs ⟨2048, vllm_temperature mode⟩])

/-- `FridgeTetrisMaster.organize_fridge`: encode both images, fail if either
encoding is `None`, else dispatch on `use_ollama`. -/
def organize_fridge (st : FridgeTetrisMaster) (env : Env)
    (current_fridge new_groceries : ImgInput) (mode : String) :
    (JVal × Option PImage) × List Effect :=
  match image_to_base64 env current_fridge, image_to_base64 env new_groceries with
  | some c, some n =>
      if st.use_ollama then call_ollama st env c n mode
      else call_vllm st env c n mode
  | _, _ =>
      ((.str "Error: Could not process images. Please ensure both images are valid.",
        Option.none), [])

/-- The image returned to the Gradio UI: nothing, the backend's annotated
image, or the echoed input. -/
inductive UIOut where
  | none
  | backend (img : PImage)
  | input (img : ImgInput)
  deriving Repr

/-- Python truthiness of the optional backend image: `None` is falsy and a
PIL image (which defines no `__bool__` or `__len__`) is truthy. -/
def pyTruthyImg : Option PImage → Bool
  | Option.none => false
  | some _ => true

/-- `fridge_master_interface`: the Gradio callback. Missing inputs
short-circuit with a message; otherwise the master organizes the fridge and
the annotated image, or failing that the original fridge photo, is shown. -/
def fridge_master_interface (st : FridgeTetrisMaster) (env : Env)
    (current_fridge new_groceries : ImgInput) (mode : String) :
    (JVal × UIOut) × List Effect :=
  match current_fridge with
  | ImgInput.none =>
      ((.str "Please upload an image of your current fridge state.", UIOut.none), [])
  | _ =>
    match new_groceries with
    | ImgInput.none =>
        ((.str "Please upload an image of your new groceries.", UIOut.none), [])
    | _ =>
      (((organize_fridge st env current_fridge new_groceries mode).1.1,
        if pyTruthyImg (organize_fridge st env current_fridge new_groceries mode).1.2 then
          match (organize_fridge st env current_fridge new_groceries mode).1.2 with
          | some i => UIOut.backend i
          | Option.none => UIOut.none
        else UIOut.input current_fridge),
       (organize_fridge st env current_fridge new_groceries mode).2)

/-! ## Concrete instances used to exercise the definitions -/

/-- A one-by-one test bitmap. -/
def exImage : PImage := ⟨1, 1, [(7 : Fin 256)]⟩

/-- A loaded test model handle. -/
def exLLM : LLM := ⟨"Qwen/Qwen2.5-VL-7B-Instruct"⟩

/-- An environment whose Ollama endpoint answers 404 and whose image
library works. -/
def exEnv404 : Env where
  ollama_available := true
  vllm_available := false
  qwen_available := false
  prompt_file := some "P"
  loadLLM := fun _ => .error ⟨"no gpu"⟩
  openImage := fun _ => .ok exImage
  fromarray := fun _ => .ok exImage
  httpPost := fun _ => .ok ⟨404, .ok (.obj [])⟩
  process_vision_info := fun m => .ok m
  llmChat := fun _ _ _ => .error ⟨"model not loaded"⟩

/-- An environment whose HTTP transport raises a connection error. -/
def exEnvHttpErr : Env where
  ollama_available := true
  vllm_available := false
  qwen_available := false
  prompt_file := some "P"
  loadLLM := fun _ => .error ⟨"no gpu"⟩
  openImage := fun _ => .ok exImage
  fromarray := fun _ => .ok exImage
  httpPost := fun _ => .error ⟨"connection refused"⟩
  process_vision_info := fun m => .ok m
  llmChat := fun _ _ _ => .error ⟨"model not loaded"⟩

/-- An environment whose image decoder rejects every file. -/
def exEnvBadImage : Env where
  ollama_available := true
  vllm_available := false
  qwen_available := false
  prompt_file := some "P"
  loadLLM := fun _ => .error ⟨"no gpu"⟩
  openImage := fun _ => .error ⟨"cannot identify image file"⟩
  fromarray := fun _ => .error ⟨"Cannot handle this data type"⟩
  httpPost := fun _ => .ok ⟨200, .ok (.obj [])⟩
  process_vision_info := fun m => .ok m
  llmChat := fun _ _ _ => .error ⟨"model not loaded"⟩

/-- An environment where vLLM is importable but model loading raises. -/
def exEnvLoadFail : Env where
  ollama_available := true
  vllm_available := true
  qwen_available := true
  prompt_file := some "P"
  loadLLM := fun _ => .error ⟨"CUDA out of memory"⟩
  openImage := fun _ => .ok exImage
  fromarray := fun _ => .ok exImage
  httpPost := fun _ => .ok ⟨200, .ok (.obj [("message", .obj [("content", .str "ok")])])⟩
  process_vision_info := fun m => .ok m
  llmChat := fun _ _ _ => .error ⟨"model not loaded"⟩

/-- An instance configured for the Ollama transport. -/
def exMaster : FridgeTetrisMaster := ⟨true, "http://localhost:11434", Option.none, "P"⟩

/-- An instance holding a loaded vLLM model. -/
def exMasterV : FridgeTetrisMaster := ⟨false, "http://localhost:11434", some exLLM, "P"⟩

/-! ## Helper lemmas for the codecs -/

/-- The base64 alphabet table has the inverse property on all 64 indices. -/
theorem charSextet_sextetChar (n : Nat) (h : n < 64) :
    charSextet (sextetChar n) = some n := by
  revert h
  revert n
  decide

/-- No alphabet character is the padding character. -/
theorem sextetChar_ne_pad (n : Nat) : sextetChar n ≠ '=' := by
  by_cases h : n < 64
  · revert h
    revert n
    decide
  · have hlen : b64chars.length = 64 := by decide
    have : sextetChar n = 'A' := by
      unfold sextetChar
      apply List.getD_eq_default
      omega
    rw [this]
    decide

/-- Decoding inverts encoding on genuine byte lists. -/
theorem b64decode_encode (l : List Nat) (hl : ∀ b ∈ l, b < 256) :
    b64decodeBytes (b64encodeBytes l) = some l := by
  induction l using b64encodeBytes.induct with
  | case1 =>
      rfl
  | case2 a =>
      have ha : a < 256 := hl a (by simp)
      rw [b64encodeBytes, b64decodeBytes]
      rw [if_pos ⟨rfl, rfl, rfl⟩]
      rw [charSextet_sextetChar (a / 4) (by omega),
          charSextet_sextetChar (a % 4 * 16) (by omega)]
      show (if a % 4 * 16 % 16 = 0 then some [a / 4 * 4 + a % 4 * 16 / 16]
            else none) = some [a]
      rw [if_pos (by omega)]
      have e1 : a / 4 * 4 + a % 4 * 16 / 16 = a := by omega
      rw [e1]
  | case3 a b =>
      have ha : a < 256 := hl a (by simp)
      have hb : b < 256 := hl b (by simp)
      rw [b64encodeBytes, b64decodeBytes]
      rw [if_neg (by
        intro hcontra
        exact sextetChar_ne_pad (b % 16 * 4) hcontra.1)]
      rw [if_pos ⟨rfl, rfl⟩]
      rw [charSextet_sextetChar (a / 4) (by omega),
          charSextet_sextetChar (a % 4 * 16 + b / 16) (by omega),
          charSextet_sextetChar (b % 16 * 4) (by omega)]
      show (if b % 16 * 4 % 4 = 0 then
              some [a / 4 * 4 + (a % 4 * 16 + b / 16) / 16,
                    (a % 4 * 16 + b / 16) % 16 * 16 + b % 16 * 4 / 4]
            else none) = some [a, b]
      rw [if_pos (by omega)]
      have e1 : a / 4 * 4 + (a % 4 * 16 + b / 16) / 16 = a := by omega
      have e2 : (a % 4 * 16 + b / 16) % 16 * 16 + b % 16 * 4 / 4 = b := by omega
      rw [e1, e2]
  | case4 a b c rest ih =>
      have ha : a < 256 := hl a (by simp)
      have hb : b < 256 := hl b (by simp)
      have hc : c < 256 := hl c (by simp)
      have hrest : ∀ x ∈ rest, x < 256 := by
        intro x hx
        exact hl x (by simp [hx])
      rw [b64encodeBytes, b64decodeBytes]
      rw [if_neg (by
        intro hcontra
        exact sextetChar_ne_pad (b % 16 * 4 + c / 64) hcontra.1)]
      rw [if_neg (by
        intro hcontra
        exact sextetChar_ne_pad (c % 64) hcontra.1)]
      rw [charSextet_sextetChar (a / 4) (by omega),
          charSextet_sextetChar (a % 4 * 16 + b / 16) (by omega),
          charSextet_sextetChar (b % 16 * 4 + c / 64) (by omega),
          charSextet_sextetChar (c % 64) (by omega)]
      rw [ih hrest]
      have e1 : a / 4 * 4 + (a % 4 * 16 + b / 16) / 16 = a := by omega
      have e2 : (a % 4 * 16 + b / 16) % 16 * 16 + (b % 16 * 4 + c / 64) / 4 = b := by
        omega
      have e3 : (b % 16 * 4 + c / 64) % 4 * 64 + c % 64 = c := by omega
      show some ((a / 4 * 4 + (a % 4 * 16 + b / 16) / 16) ::
                 ((a % 4 * 16 + b / 16) % 16 * 16 + (b % 16 * 4 + c / 64) / 4) ::
                 ((b % 16 * 4 + c / 64) % 4 * 64 + c % 64) :: rest)
           = some (a :: b :: c :: rest)
      rw [e1, e2, e3]

/-- Reading a unary number off its own encoding returns it with the rest. -/
theorem parseUnary_unaryNat (n : Nat) (rest : List Nat) :
    parseUnary (unaryNat n ++ rest) = some (n, rest) := by
  induction n with
  | zero => rfl
  | succ k ih =>
      have : unaryNat (k + 1) ++ rest = 1 :: (unaryNat k ++ rest) := by
        simp [unaryNat, List.replicate_succ]
      rw [this, parseUnary, ih]
      rfl

/-- Samples survive the byte round trip. -/
theorem bytesToPixels_map_val (l : List (Fin 256)) :
    bytesToPixels (l.map Fin.val) = some l := by
  induction l with
  | nil => rfl
  | cons p rest ih =>
      rw [List.map_cons, bytesToPixels, dif_pos p.isLt, ih]
      rfl

/-- Every byte of a unary encoding is a byte. -/
theorem unaryNat_lt (n : Nat) : ∀ b ∈ unaryNat n, b < 256 := by
  intro b hb
  rcases List.mem_append.1 hb with h | h
  · have := List.eq_of_mem_replicate h
    omega
  · simp at h
    omega

/-- Every byte of a serialized bitmap is a byte. -/
theorem pngSerialize_lt (img : PImage) : ∀ b ∈ pngSerialize img, b < 256 := by
  intro b hb
  unfold pngSerialize at hb
  rcases List.mem_append.1 hb with h | h
  · rcases List.mem_append.1 h with h1 | h1
    · exact unaryNat_lt _ b h1
    · exact unaryNat_lt _ b h1
  · rcases List.mem_map.1 h with ⟨p, _, hpv⟩
    rw [← hpv]
    exact p.isLt

/-- The PNG codec model is lossless. -/
theorem pngParse_pngSerialize (img : PImage) :
    pngParse (pngSerialize img) = some img := by
  have h : pngSerialize img
      = unaryNat img.width ++ (unaryNat img.height ++ img.pixels.map Fin.val) := by
    unfold pngSerialize
    rw [List.append_assoc]
  rw [h]
  simp [pngParse, parseUnary_unaryNat, bytesToPixels_map_val]

/-! ## Claim theorems -/

/-- C9: for every mode string other than exactly `"Normal"` — not only
`"Chaos"` — both transports select the Chaos-mode prompt instruction, and
the vLLM transport selects the Chaos temperature 0.9; the mode value is
never validated against the two documented choices. -/
theorem mode_not_validated (mode base : String) (h : mode ≠ "Normal") :
    mode_instruction mode =
      "Chaos mode: intentionally terrible but technically possible packing with evil commentary" ∧
    vllm_temperature mode = (9 : ℚ)/10 ∧
    full_prompt base mode = base ++ "\n\nMode: " ++ mode ++ "\n" ++ mode_instruction "Chaos" := by
  refine ⟨?_, ?_, ?_⟩
  · simp [mode_instruction, h]
  · simp [vllm_temperature, h]
  · simp [full_prompt, mode_instruction, h]

/-- Witness for C9 at the undocumented mode string `"Garbage"`. -/
theorem mode_not_validated_witness :
    mode_instruction "Garbage" =
      "Chaos mode: intentionally terrible but technically possible packing with evil commentary" ∧
    vllm_temperature "Garbage" = (9 : ℚ)/10 ∧
    full_prompt "B" "Garbage" =
      "B" ++ "\n\nMode: " ++ "Garbage" ++ "\n" ++ mode_instruction "Chaos" :=
  mode_not_validated "Garbage" "B" (by decide)

/-- C10: `image_to_base64` is total: it returns `None` on a `None` input,
returns `None` whenever the conversion body raises, and otherwise wraps the
body's base64 string — no input makes it raise. -/
theorem image_to_base64_total (env : Env) (image : ImgInput) :
    (image = ImgInput.none → image_to_base64 env image = Option.none) ∧
    (∀ e, image_to_base64_try env image = .error e →
        image_to_base64 env image = Option.none) ∧
    (∀ s, image_to_base64_try env image = .ok s →
        image ≠ ImgInput.none → image_to_base64 env image = some s) := by
  refine ⟨?_, ?_, ?_⟩
  · intro h
    rw [h]
    rfl
  · intro e he
    cases image with
    | none => rfl
    | path p => simp [image_to_base64, he]
    | pil i => simp [image_to_base64, he]
    | arr a => simp [image_to_base64, he]
  · intro s hs hne
    cases image with
    | none => exact absurd rfl hne
    | path p => simp [image_to_base64, hs]
    | pil i => simp [image_to_base64, hs]
    | arr a => simp [image_to_base64, hs]

/-- Witness for C10: a failing `Image.open` is caught and yields `None`. -/
theorem image_to_base64_total_witness :
    image_to_base64 exEnvBadImage (ImgInput.path "x.jpg") = Option.none :=
  (image_to_base64_total exEnvBadImage (ImgInput.path "x.jpg")).2.1
    ⟨"cannot identify image file"⟩ rfl

/-- C2 counterexample: the Ollama request built for Normal mode carries no
sampling temperature at all — neither an `options.temperature` nor a
top-level `temperature` field — so the sampling temperature on the Ollama
transport is not the documented constant 0.7. -/
theorem ollama_request_no_temperature :
    ollamaBodySamplingTemperature (ollamaReq exMaster "cf64" "ng64" "Normal").body
      = Option.none ∧
    "temperature" ∉ JVal.keys (ollamaReq exMaster "cf64" "ng64" "Normal").body ∧
    "options" ∉ JVal.keys (ollamaReq exMaster "cf64" "ng64" "Normal").body := by
  refine ⟨rfl, ?_, ?_⟩
  · decide
  · decide

/-- C2 amended: the vLLM transport samples at temperature 0.7 when the mode
is `"Normal"` and 0.9 otherwise (every generation it performs uses exactly
that temperature); the Ollama transport sends no temperature in its request
body, leaving the server default in force. -/
theorem sampling_temperature_by_mode (st : FridgeTetrisMaster) (env : Env)
    (cf nb mode : String) :
    (mode = "Normal" → vllm_temperature mode = (7 : ℚ)/10) ∧
    (mode ≠ "Normal" → vllm_temperature mode = (9 : ℚ)/10) ∧
    (∀ e ∈ (call_vllm st env cf nb mode).2,
        ∃ m, e = Effect.vllmGenerate m ⟨2048, vllm_temperature mode⟩) ∧
    ollamaBodySamplingTemperature (ollamaReq st cf nb mode).body = Option.none ∧
    "temperature" ∉ JVal.keys (ollamaReq st cf nb mode).body := by
  refine ⟨?_, ?_, ?_, ?_, ?_⟩
  · intro h
    simp [vllm_temperature, h]
  · intro h
    simp [vllm_temperature, h]
  · intro e he
    unfold call_vllm at he
    cases hllm : st.llm with
    | none =>
        rw [hllm] at he
        simp at he
    | some l =>
        rw [hllm] at he
        dsimp only at he
        cases hp : (if env.qwen_available then
            env.process_vision_info (vllmMessagesOf (full_prompt st.base_prompt mode) cf nb)
          else .ok (vllmMessagesOf (full_prompt st.base_prompt mode) cf nb)) with
        | error err =>
            rw [hp] at he
            simp at he
        | ok msgs =>
            rw [hp] at he
            dsimp only at he
            cases hc : env.llmChat l msgs ⟨2048, vllm_temperature mode⟩ with
            | error err =>
                rw [hc] at he
                simp at he
                exact ⟨msgs, he⟩
            | ok outs =>
                rw [hc] at he
                dsimp only at he
                cases outs with
                | nil =>
                    simp at he
                    exact ⟨msgs, he⟩
                | cons o rest =>
                    dsimp only at he
                    cases hco : o.outputs with
                    | nil =>
                        rw [hco] at he
                        simp at he
                        exact ⟨msgs, he⟩
                    | cons c cs =>
                        rw [hco] at he
                        simp at he
                        exact ⟨msgs, he⟩
  · simp [ollamaBodySamplingTemperature, ollamaReq, ollamaBody, ollamaMessages, jLookup,
          List.lookup]
  · simp [ollamaReq, ollamaBody, ollamaMessages, JVal.keys]

/-- Witness for C2's amended statement at the two documented modes. -/
theorem sampling_temperature_by_mode_witness :
    vllm_temperature "Normal" = (7 : ℚ)/10 ∧ vllm_temperature "Chaos" = (9 : ℚ)/10 ∧
    ollamaBodySamplingTemperature (ollamaReq exMaster "a" "b" "Chaos").body = Option.none :=
  ⟨(sampling_temperature_by_mode exMaster exEnv404 "a" "b" "Normal").1 rfl,
   (sampling_temperature_by_mode exMaster exEnv404 "a" "b" "Chaos").2.1 (by decide),
   (sampling_temperature_by_mode exMaster exEnv404 "a" "b" "Chaos").2.2.2.1⟩

/-! ## Shared helper lemmas about the app functions -/

/-- With both images present, the interface is the organize result plus the
image-fallback computation. -/
theorem interface_eq_of_ne (st : FridgeTetrisMaster) (env : Env)
    (cf nb : ImgInput) (mode : String)
    (hcf : cf ≠ ImgInput.none) (hnb : nb ≠ ImgInput.none) :
    fridge_master_interface st env cf nb mode =
      (((organize_fridge st env cf nb mode).1.1,
        if pyTruthyImg (organize_fridge st env cf nb mode).1.2 then
          match (organize_fridge st env cf nb mode).1.2 with
          | some i => UIOut.backend i
          | Option.none => UIOut.none
        else UIOut.input cf),
       (organize_fridge st env cf nb mode).2) := by
  cases cf <;> cases nb <;>
    first
      | exact absurd rfl hcf
      | exact absurd rfl hnb
      | rfl

/-- A missing or unconvertible image makes `organize_fridge` return the
fixed error pair with no effects. -/
theorem organize_fridge_err (st : FridgeTetrisMaster) (env : Env)
    (cf nb : ImgInput) (mode : String)
    (h : image_to_base64 env cf = Option.none ∨ image_to_base64 env nb = Option.none) :
    organize_fridge st env cf nb mode =
      ((.str "Error: Could not process images. Please ensure both images are valid.",
        Option.none), []) := by
  unfold organize_fridge
  rcases h with h | h
  · rw [h]
  · rw [h]
    cases image_to_base64 env cf <;> rfl

/-- With both images converted, `organize_fridge` is exactly the dispatch on
`use_ollama`. -/
theorem organize_fridge_dispatch (st : FridgeTetrisMaster) (env : Env)
    (cf nb : ImgInput) (mode : String) (c n : String)
    (h1 : image_to_base64 env cf = some c)
    (h2 : image_to_base64 env nb = some n) :
    organize_fridge st env cf nb mode =
      (if st.use_ollama then call_ollama st env c n mode
       else call_vllm st env c n mode) := by
  unfold organize_fridge
  rw [h1, h2]

/-- `call_ollama` performs at most one HTTP request. -/
theorem call_ollama_len (st : FridgeTetrisMaster) (env : Env) (cf nb mode : String) :
    (call_ollama st env cf nb mode).2.length ≤ 1 := by
  unfold call_ollama
  repeat' split
  all_goals simp

/-- `call_vllm` performs at most one generation. -/
theorem call_vllm_len (st : FridgeTetrisMaster) (env : Env) (cf nb mode : String) :
    (call_vllm st env cf nb mode).2.length ≤ 1 := by
  unfold call_vllm
  repeat' split
  all_goals simp

/-- `call_ollama` on a non-200 response: exact result and effect. -/
theorem call_ollama_bad_status_eq (st : FridgeTetrisMaster) (env : Env)
    (cf nb mode : String) (resp : HttpResp)
    (ha : env.ollama_available = true)
    (hpost : env.httpPost (ollamaReq st cf nb mode) = .ok resp)
    (hstatus : resp.status ≠ 200) :
    call_ollama st env cf nb mode =
      ((.str ("Error: Ollama API returned status " ++ toString resp.status),
        Option.none),
       [.ollamaPost (ollamaReq st cf nb mode)]) := by
  unfold call_ollama
  rw [if_neg (by simp [ha])]
  rw [hpost]
  dsimp only
  rw [if_neg hstatus]

/-- `call_ollama` when the HTTP call raises: exact result and effect. -/
theorem call_ollama_raise_eq (st : FridgeTetrisMaster) (env : Env)
    (cf nb mode : String) (e : PyExc)
    (ha : env.ollama_available = true)
    (hpost : env.httpPost (ollamaReq st cf nb mode) = .error e) :
    call_ollama st env cf nb mode =
      ((.str ("Error calling Ollama: " ++ e.msg), Option.none),
       [.ollamaPost (ollamaReq st cf nb mode)]) := by
  unfold call_ollama
  rw [if_neg (by simp [ha])]
  rw [hpost]

/-! ## Remaining claim theorems -/

/-- C4: every Ollama-transport request that receives an HTTP response with
a status code other than 200 yields an error string containing that numeric
status code, and a `None` image. -/
theorem call_ollama_non_200 (st : FridgeTetrisMaster) (env : Env)
    (cf nb mode : String) (resp : HttpResp)
    (ha : env.ollama_available = true)
    (hpost : env.httpPost (ollamaReq st cf nb mode) = .ok resp)
    (hstatus : resp.status ≠ 200) :
    ∃ s, call_ollama st env cf nb mode =
        ((.str s, Option.none), [.ollamaPost (ollamaReq st cf nb mode)]) ∧
      ∃ p, s = p ++ toString resp.status := by
  refine ⟨"Error: Ollama API returned status " ++ toString resp.status, ?_, ?_⟩
  · exact call_ollama_bad_status_eq st env cf nb mode resp ha hpost hstatus
  · exact ⟨"Error: Ollama API returned status ", rfl⟩

/-- Witness for C4 at a concrete 404 response. -/
theorem call_ollama_non_200_witness :
    ∃ s, call_ollama exMaster exEnv404 "c" "n" "Normal" =
        ((.str s, Option.none), [.ollamaPost (ollamaReq exMaster "c" "n" "Normal")]) ∧
      ∃ p, s = p ++ toString (404 : Nat) :=
  call_ollama_non_200 exMaster exEnv404 "c" "n" "Normal" ⟨404, .ok (.obj [])⟩
    rfl rfl (by decide)

/-- C8: every Ollama-transport request is a single HTTP POST to the
configured endpoint's `/api/chat` path whose JSON body holds exactly the
model name, a one-element message array carrying the assembled prompt and
the two base64 images in order, and a false stream flag. -/
theorem call_ollama_request_shape (st : FridgeTetrisMaster) (env : Env)
    (cf nb mode : String) (ha : env.ollama_available = true) :
    (call_ollama st env cf nb mode).2 = [Effect.ollamaPost (ollamaReq st cf nb mode)] ∧
    (ollamaReq st cf nb mode).url = st.ollama_url ++ "/api/chat" ∧
    (ollamaReq st cf nb mode).timeout = 120 ∧
    (ollamaReq st cf nb mode).body =
      JVal.obj [("model", .str "qwen2.5-vl:7b"),
                ("messages", .arr [.obj [("role", .str "user"),
                  ("content", .str (full_prompt st.base_prompt mode)),
                  ("images", .arr [.str cf, .str nb])]]),
                ("stream", .bool false)] := by
  refine ⟨?_, rfl, rfl, rfl⟩
  unfold call_ollama
  rw [if_neg (by simp [ha])]
  cases hpost : env.httpPost (ollamaReq st cf nb mode) with
  | error e => rfl
  | ok resp =>
      dsimp only
      by_cases hs : resp.status = 200
      · rw [if_pos hs]
        cases resp.json with
        | error e => rfl
        | ok result =>
            dsimp only
            cases ollamaText result <;> rfl
      · rw [if_neg hs]

/-- Witness for C8 at a concrete environment. -/
theorem call_ollama_request_shape_witness :
    (call_ollama exMaster exEnv404 "cfb" "ngb" "Chaos").2 =
      [Effect.ollamaPost (ollamaReq exMaster "cfb" "ngb" "Chaos")] ∧
    (ollamaReq exMaster "cfb" "ngb" "Chaos").url =
      exMaster.ollama_url ++ "/api/chat" ∧
    (ollamaReq exMaster "cfb" "ngb" "Chaos").timeout = 120 ∧
    (ollamaReq exMaster "cfb" "ngb" "Chaos").body =
      JVal.obj [("model", .str "qwen2.5-vl:7b"),
                ("messages", .arr [.obj [("role", .str "user"),
                  ("content", .str (full_prompt exMaster.base_prompt "Chaos")),
                  ("images", .arr [.str "cfb", .str "ngb"])]]),
                ("stream", .bool false)] :=
  call_ollama_request_shape exMaster exEnv404 "cfb" "ngb" "Chaos" rfl

/-- C1: a call of the interface function with either image missing or with
either base64 conversion failing returns one of the explanatory error
strings and performs no transport effect at all. -/
theorem interface_short_circuit (st : FridgeTetrisMaster) (env : Env)
    (cf nb : ImgInput) (mode : String)
    (h : cf = ImgInput.none ∨ nb = ImgInput.none ∨
         image_to_base64 env cf = Option.none ∨
         image_to_base64 env nb = Option.none) :
    ∃ s, (fridge_master_interface st env cf nb mode).1.1 = JVal.str s ∧
      (s = "Please upload an image of your current fridge state." ∨
       s = "Please upload an image of your new groceries." ∨
       s = "Error: Could not process images. Please ensure both images are valid.") ∧
      (fridge_master_interface st env cf nb mode).2 = [] := by
  by_cases hcf : cf = ImgInput.none
  · subst hcf
    exact ⟨"Please upload an image of your current fridge state.", rfl, Or.inl rfl, rfl⟩
  · by_cases hnb : nb = ImgInput.none
    · subst hnb
      refine ⟨"Please upload an image of your new groceries.", ?_, Or.inr (Or.inl rfl), ?_⟩ <;>
        cases cf <;>
          first
            | exact absurd rfl hcf
            | rfl
    · have henc : image_to_base64 env cf = Option.none ∨
          image_to_base64 env nb = Option.none := by
        rcases h with h | h | h | h
        · exact absurd h hcf
        · exact absurd h hnb
        · exact Or.inl h
        · exact Or.inr h
      rw [interface_eq_of_ne st env cf nb mode hcf hnb,
          organize_fridge_err st env cf nb mode henc]
      exact ⟨"Error: Could not process images. Please ensure both images are valid.",
             rfl, Or.inr (Or.inr rfl), rfl⟩

/-- Witness for C1: a missing fridge image short-circuits. -/
theorem interface_short_circuit_witness :
    ∃ s, (fridge_master_interface exMaster exEnv404 ImgInput.none
            (ImgInput.pil exImage) "Normal").1.1 = JVal.str s ∧
      (s = "Please upload an image of your current fridge state." ∨
       s = "Please upload an image of your new groceries." ∨
       s = "Error: Could not process images. Please ensure both images are valid.") ∧
      (fridge_master_interface exMaster exEnv404 ImgInput.none
        (ImgInput.pil exImage) "Normal").2 = [] :=
  interface_short_circuit exMaster exEnv404 ImgInput.none (ImgInput.pil exImage)
    "Normal" (Or.inl rfl)

/-- C3: when the backend returns no annotated image the interface echoes the
original current-fridge input back, and when the backend does return one,
that image is returned instead. -/
theorem interface_image_fallback (st : FridgeTetrisMaster) (env : Env)
    (cf nb : ImgInput) (mode : String)
    (hcf : cf ≠ ImgInput.none) (hnb : nb ≠ ImgInput.none) :
    ((organize_fridge st env cf nb mode).1.2 = Option.none →
       (fridge_master_interface st env cf nb mode).1.2 = UIOut.input cf) ∧
    (∀ i, (organize_fridge st env cf nb mode).1.2 = some i →
       (fridge_master_interface st env cf nb mode).1.2 = UIOut.backend i) := by
  rw [interface_eq_of_ne st env cf nb mode hcf hnb]
  constructor
  · intro h
    simp [h, pyTruthyImg]
  · intro i h
    simp [h, pyTruthyImg]

/-- Witness for C3: on a 404 failure no annotated image exists and the
fridge photo is echoed back. -/
theorem interface_image_fallback_witness :
    (fridge_master_interface exMaster exEnv404 (ImgInput.pil exImage)
      (ImgInput.pil exImage) "Normal").1.2 = UIOut.input (ImgInput.pil exImage) :=
  (interface_image_fallback exMaster exEnv404 (ImgInput.pil exImage)
      (ImgInput.pil exImage) "Normal" (by simp) (by simp)).1 rfl

/-- C6: `organize_fridge` dispatches on `use_ollama` — Ollama transport when
true, vLLM transport when false — and a vLLM initialization failure during
construction flips the instance to the Ollama transport for all subsequent
requests. -/
theorem transport_dispatch_and_fallback :
    (∀ (st : FridgeTetrisMaster) (env : Env) (cf nb : ImgInput) (mode c n : String),
        image_to_base64 env cf = some c → image_to_base64 env nb = some n →
        organize_fridge st env cf nb mode =
          (if st.use_ollama then call_ollama st env c n mode
           else call_vllm st env c n mode)) ∧
    (∀ (env : Env) (model_name url : String) (e : PyExc),
        env.vllm_available = true → env.loadLLM model_name = .error e →
        (FridgeTetrisMaster.init env model_name false url).use_ollama = true ∧
        (FridgeTetrisMaster.init env model_name false url).llm = Option.none) := by
  constructor
  · intro st env cf nb mode c n h1 h2
    exact organize_fridge_dispatch st env cf nb mode c n h1 h2
  · intro env model_name url e hv he
    unfold FridgeTetrisMaster.init
    rw [hv]
    rw [he]
    exact ⟨rfl, rfl⟩

/-- Witness for C6: dispatch at a concrete instance, and the fallback after
a failing model load. -/
theorem transport_dispatch_and_fallback_witness :
    organize_fridge exMaster exEnvLoadFail (ImgInput.pil exImage)
        (ImgInput.pil exImage) "Normal" =
      (if exMaster.use_ollama then
         call_ollama exMaster exEnvLoadFail
           (String.mk (b64encodeBytes (pngSerialize exImage)))
           (String.mk (b64encodeBytes (pngSerialize exImage))) "Normal"
       else
         call_vllm exMaster exEnvLoadFail
           (String.mk (b64encodeBytes (pngSerialize exImage)))
           (String.mk (b64encodeBytes (pngSerialize exImage))) "Normal") ∧
    (FridgeTetrisMaster.init exEnvLoadFail "m" false "u").use_ollama = true :=
  ⟨transport_dispatch_and_fallback.1 exMaster exEnvLoadFail (ImgInput.pil exImage)
      (ImgInput.pil exImage) "Normal"
      (String.mk (b64encodeBytes (pngSerialize exImage)))
      (String.mk (b64encodeBytes (pngSerialize exImage))) rfl rfl,
   (transport_dispatch_and_fallback.2 exEnvLoadFail "m" "u"
      ⟨"CUDA out of memory"⟩ rfl rfl).1⟩

/-- C5: every failure path of `organize_fridge` — missing or undecodable
images, a non-200 remote status, or a remote-call exception — returns a
plain error string paired with a `None` image; no failure raises out of the
function and no path performs more than one transport call (no retries). -/
theorem organize_fridge_failure_paths (st : FridgeTetrisMaster) (env : Env)
    (cf nb : ImgInput) (mode : String) :
    ((image_to_base64 env cf = Option.none ∨ image_to_base64 env nb = Option.none) →
       organize_fridge st env cf nb mode =
         ((.str "Error: Could not process images. Please ensure both images are valid.",
           Option.none), [])) ∧
    (∀ c n e, image_to_base64 env cf = some c → image_to_base64 env nb = some n →
       st.use_ollama = true → env.ollama_available = true →
       env.httpPost (ollamaReq st c n mode) = .error e →
       organize_fridge st env cf nb mode =
         ((.str ("Error calling Ollama: " ++ e.msg), Option.none),
          [.ollamaPost (ollamaReq st c n mode)])) ∧
    (∀ c n resp, image_to_base64 env cf = some c → image_to_base64 env nb = some n →
       st.use_ollama = true → env.ollama_available = true →
       env.httpPost (ollamaReq st c n mode) = .ok resp → resp.status ≠ 200 →
       organize_fridge st env cf nb mode =
         ((.str ("Error: Ollama API returned status " ++ toString resp.status),
           Option.none),
          [.ollamaPost (ollamaReq st c n mode)])) ∧
    (∀ c n l e, image_to_base64 env cf = some c → image_to_base64 env nb = some n →
       st.use_ollama = false → st.llm = some l →
       (∀ m sp, env.llmChat l m sp = .error e) →
       ∃ s, (organize_fridge st env cf nb mode).1 = (.str s, Option.none)) ∧
    (organize_fridge st env cf nb mode).2.length ≤ 1 := by
  refine ⟨?_, ?_, ?_, ?_, ?_⟩
  · intro h
    exact organize_fridge_err st env cf nb mode h
  · intro c n e h1 h2 hu ha hpost
    rw [organize_fridge_dispatch st env cf nb mode c n h1 h2, hu, if_pos rfl]
    exact call_ollama_raise_eq st env c n mode e ha hpost
  · intro c n resp h1 h2 hu ha hpost hstatus
    rw [organize_fridge_dispatch st env cf nb mode c n h1 h2, hu, if_pos rfl]
    exact call_ollama_bad_status_eq st env c n mode resp ha hpost hstatus
  · intro c n l e h1 h2 hu hllm hchat
    rw [organize_fridge_dispatch st env cf nb mode c n h1 h2, hu,
        if_neg (by simp)]
    unfold call_vllm
    rw [hllm]
    dsimp only
    cases hp : (if env.qwen_available then
        env.process_vision_info (vllmMessagesOf (full_prompt st.base_prompt mode) c n)
      else .ok (vllmMessagesOf (full_prompt st.base_prompt mode) c n)) with
    | error err => exact ⟨"Error calling vLLM: " ++ err.msg, rfl⟩
    | ok msgs =>
        dsimp only
        rw [hchat msgs ⟨2048, vllm_temperature mode⟩]
        exact ⟨"Error calling vLLM: " ++ e.msg, rfl⟩
  · cases hcf : image_to_base64 env cf with
    | none =>
        rw [organize_fridge_err st env cf nb mode (Or.inl hcf)]
        simp
    | some c =>
        cases hnb : image_to_base64 env nb with
        | none =>
            rw [organize_fridge_err st env cf nb mode (Or.inr hnb)]
            simp
        | some n =>
            rw [organize_fridge_dispatch st env cf nb mode c n hcf hnb]
            cases hu : st.use_ollama with
            | false =>
                rw [if_neg (by simp)]
                exact call_vllm_len st env c n mode
            | true =>
                rw [if_pos rfl]
                exact call_ollama_len st env c n mode

/-- Witness for C5: a raising HTTP call, and a failing image decode, each
collapse to an error string with a `None` image. -/
theorem organize_fridge_failure_paths_witness :
    organize_fridge exMaster exEnvHttpErr (ImgInput.pil exImage)
        (ImgInput.pil exImage) "Normal" =
      ((.str ("Error calling Ollama: " ++ "connection refused"), Option.none),
       [.ollamaPost (ollamaReq exMaster
          (String.mk (b64encodeBytes (pngSerialize exImage)))
          (String.mk (b64encodeBytes (pngSerialize exImage))) "Normal")]) ∧
    organize_fridge exMaster exEnvBadImage (ImgInput.path "x")
        (ImgInput.pil exImage) "Normal" =
      ((.str "Error: Could not process images. Please ensure both images are valid.",
        Option.none), []) :=
  ⟨(organize_fridge_failure_paths exMaster exEnvHttpErr (ImgInput.pil exImage)
      (ImgInput.pil exImage) "Normal").2.1
      (String.mk (b64encodeBytes (pngSerialize exImage)))
      (String.mk (b64encodeBytes (pngSerialize exImage)))
      ⟨"connection refused"⟩ rfl rfl rfl rfl rfl,
   (organize_fridge_failure_paths exMaster exEnvBadImage (ImgInput.path "x")
      (ImgInput.pil exImage) "Normal").1 (Or.inl rfl)⟩

/-- C7: for every input whose image loads, the produced base64 string is
the encoding of the loaded bitmap's PNG stream, and base64-decoding plus
re-opening that stream returns the pixel-identical bitmap. -/
theorem encode_decode_roundtrip (env : Env) (input : ImgInput) (img : PImage)
    (s : String)
    (hload : loadImage env input = some img)
    (henc : image_to_base64 env input = some s) :
    s = String.mk (b64encodeBytes (pngSerialize img)) ∧
    (b64decodeBytes s.toList).bind pngParse = some img := by
  have hs : s = String.mk (b64encodeBytes (pngSerialize img)) := by
    cases input with
    | none => exact absurd hload (by simp [loadImage])
    | path p =>
        cases hop : env.openImage p with
        | error e =>
            unfold loadImage at hload
            dsimp only at hload
            rw [hop] at hload
            simp [Except.toOption] at hload
        | ok i =>
            unfold loadImage at hload
            dsimp only at hload
            rw [hop] at hload
            simp [Except.toOption] at hload
            subst hload
            unfold image_to_base64 image_to_base64_try at henc
            dsimp only at henc
            rw [hop] at henc
            simp at henc
            exact henc.symm
    | pil i =>
        unfold loadImage at hload
        simp at hload
        subst hload
        unfold image_to_base64 image_to_base64_try at henc
        simp at henc
        exact henc.symm
    | arr a =>
        cases hop : env.fromarray a with
        | error e =>
            unfold loadImage at hload
            dsimp only at hload
            rw [hop] at hload
            simp [Except.toOption] at hload
        | ok i =>
            unfold loadImage at hload
            dsimp only at hload
            rw [hop] at hload
            simp [Except.toOption] at hload
            subst hload
            unfold image_to_base64 image_to_base64_try at henc
            dsimp only at henc
            rw [hop] at henc
            simp at henc
            exact henc.symm
  refine ⟨hs, ?_⟩
  rw [hs]
  show (b64decodeBytes (b64encodeBytes (pngSerialize img))).bind pngParse = some img
  rw [b64decode_encode (pngSerialize img) (pngSerialize_lt img)]
  show pngParse (pngSerialize img) = some img
  exact pngParse_pngSerialize img

/-- Witness for C7 at a concrete one-pixel bitmap. -/
theorem encode_decode_roundtrip_witness :
    String.mk (b64encodeBytes (pngSerialize exImage)) =
      String.mk (b64encodeBytes (pngSerialize exImage)) ∧
    (b64decodeBytes (String.mk (b64encodeBytes (pngSerialize exImage))).toList).bind
        pngParse = some exImage :=
  encode_decode_roundtrip exEnv404 (ImgInput.pil exImage) exImage
    (String.mk (b64encodeBytes (pngSerialize exImage))) rfl rfl
